import Mathlib

/-
Verification of the schema-validation behaviour of the three domain models
(SpaceStation, AlienContact, SpaceMission/CrewMember).

The field declarations, bounds, defaults, enumerations and business rules are
translated from the Python sources (src/ex0/space_station.py,
src/ex1/alien_contact.py, src/ex2/space_crew.py).  The generic
coercion/aggregation engine that drives them is not part of the repository
(it is the external validation library); those parts are modelled from the
specification, as marked on each definition.
-/

/-- A segment of an error path: a field name or a list index. -/
inductive PathSeg where
  | field (s : String)
  | idx (n : Nat)
  deriving DecidableEq, Repr

/-- Classification of a validation error, following the spec's taxonomy. -/
inductive ErrKind where
  | missing
  | typeErr
  | lengthErr
  | rangeErr
  | enumErr
  | ruleErr
  deriving DecidableEq, Repr

/-- One entry of a validation report: a path, a kind and a message. -/
structure VError where
  path : List PathSeg
  kind : ErrKind
  msg : String
  deriving DecidableEq, Repr

/-- A raw, untyped input value as it arrives at the validation boundary. -/
inductive RawValue where
  | str (s : String)
  | int (n : Int)
  | float (q : Rat)
  | bool (b : Bool)
  | time (t : Nat)
  | null
  | list (xs : List RawValue)
  | obj (fields : List (String × RawValue))

/-- A raw input record: mapping-like access by field name, absence signalled
by a missing key. -/
abbrev RawDict := List (String × RawValue)

instance exceptDecEq {ε α : Type} [DecidableEq ε] [DecidableEq α] :
    DecidableEq (Except ε α) := fun x y =>
  match x, y with
  | .error a, .error b =>
    match decEq a b with
    | isTrue h => isTrue (by rw [h])
    | isFalse h => isFalse (by intro hc; cases hc; exact h rfl)
  | .ok a, .ok b =>
    match decEq a b with
    | isTrue h => isTrue (by rw [h])
    | isFalse h => isFalse (by intro hc; cases hc; exact h rfl)
  | .error _, .ok _ => isFalse (by intro hc; cases hc)
  | .ok _, .error _ => isFalse (by intro hc; cases hc)

/-- Numeric value of a decimal digit character. -/
def digitVal (c : Char) : Nat := c.toNat - 48

/-- Modelled from the spec: integer fields are "parsed from numeric or
numeric-string input"; this parses an optionally signed decimal string. -/
def parseNatStr (cs : List Char) : Option Nat :=
  if cs.isEmpty then none
  else if cs.all Char.isDigit then
    some (cs.foldl (fun a c => a * 10 + digitVal c) 0)
  else none

/-- Modelled from the spec: signed decimal integer string parsing. -/
def parseIntStr (s : String) : Option Int :=
  match s.toList with
  | '-' :: rest => (parseNatStr rest).map (fun n => -(n : Int))
  | '+' :: rest => (parseNatStr rest).map (fun n => (n : Int))
  | cs => (parseNatStr cs).map (fun n => (n : Int))

/-- Modelled from the spec: float fields are "parsed from numeric or
numeric-string input"; this parses a signed decimal with an optional
fractional part, represented exactly as a rational. -/
def parseFracStr (intPart fracPart : List Char) : Option Rat :=
  match parseNatStr intPart with
  | none => none
  | some ip =>
    if fracPart.isEmpty then some (ip : Rat)
    else match parseNatStr fracPart with
      | none => none
      | some fp => some ((ip : Rat) + (fp : Rat) / ((10 : Rat) ^ fracPart.length))

/-- Modelled from the spec: decimal (possibly fractional) numeric string. -/
def parseFloatStr (s : String) : Option Rat :=
  let core := fun (cs : List Char) =>
    match cs.splitOn '.' with
    | [ip] => parseFracStr ip []
    | [ip, fp] => parseFracStr ip fp
    | _ => none
  match s.toList with
  | '-' :: rest => (core rest).map (fun q => -q)
  | '+' :: rest => core rest
  | cs => core cs

/-- Modelled from the spec: the external ISO-8601 timestamp-parsing
collaborator, `parseTimestamp(s) -> Result(Timestamp, ParseError)` for the
subset YYYY-MM-DDTHH:MM:SS.  The timestamp itself is represented as the
digit string folded to a natural number. -/
def parseTimestamp (s : String) : Option Nat :=
  match s.toList with
  | [y1, y2, y3, y4, '-', m1, m2, '-', d1, d2, 'T', h1, h2, ':', n1, n2, ':', s1, s2] =>
    let ds := [y1, y2, y3, y4, m1, m2, d1, d2, h1, h2, n1, n2, s1, s2]
    if ds.all Char.isDigit then
      some (ds.foldl (fun a c => a * 10 + digitVal c) 0)
    else none
  | _ => none

/-- Modelled from the spec: string fields accept string-typed input only. -/
def coerceStr : RawValue → Option String
  | .str s => some s
  | _ => none

/-- Modelled from the spec: integers parsed from numeric or numeric-string
input (a float is accepted only when it has no fractional part). -/
def coerceInt : RawValue → Option Int
  | .int n => some n
  | .float q => if q.den = 1 then some q.num else none
  | .str s => parseIntStr s
  | _ => none

/-- Modelled from the spec: floats parsed from numeric or numeric-string
input. -/
def coerceFloat : RawValue → Option Rat
  | .float q => some q
  | .int n => some (n : Rat)
  | .str s => parseFloatStr s
  | _ => none

/-- Modelled from the spec: "booleans accepted only from boolean-typed
input (no truthy-string coercion)". -/
def coerceBool : RawValue → Option Bool
  | .bool b => some b
  | _ => none

/-- Modelled from the spec: timestamp fields consume an already-parsed
timestamp or delegate a string to the ISO-8601 collaborator. -/
def coerceTime : RawValue → Option Nat
  | .time t => some t
  | .str s => parseTimestamp s
  | _ => none

/-- The `.startswith` test used by the business rules. -/
def strStartsWith (s p : String) : Bool := List.isPrefixOf p.toList s.toList

/-- Enumeration of authorized alien contact types (src/ex1). -/
inductive ContactType where
  | radio
  | visual
  | physical
  | telepathic
  deriving DecidableEq, Repr

/-- Enum coercion for ContactType: case-sensitive match on declared values. -/
def ContactType.fromString (s : String) : Option ContactType :=
  if s = "radio" then some .radio
  else if s = "visual" then some .visual
  else if s = "physical" then some .physical
  else if s = "telepathic" then some .telepathic
  else none

/-- The allowed crew ranks (src/ex2). -/
inductive Rank where
  | cadet
  | officer
  | lieutenant
  | captain
  | commander
  deriving DecidableEq, Repr

/-- Enum coercion for Rank: case-sensitive match on declared values. -/
def Rank.fromString (s : String) : Option Rank :=
  if s = "cadet" then some .cadet
  else if s = "officer" then some .officer
  else if s = "lieutenant" then some .lieutenant
  else if s = "captain" then some .captain
  else if s = "commander" then some .commander
  else none

/-- The errors contributed by a single field's evaluation. -/
def errsOf {α : Type} : Except VError α → List VError
  | .error e => [e]
  | .ok _ => []

/-- The single error (if any) of a field's evaluation. -/
def errOf {α : Type} : Except VError α → Option VError
  | .error e => some e
  | .ok _ => none

/-- The error list of an aggregated evaluation result. -/
def errListOf {α : Type} : Except (List VError) α → List VError
  | .error es => es
  | .ok _ => []

/-- Modelled from the spec: a required string field with inclusive length
bounds; missing ⇒ MissingFieldError, wrong type ⇒ TypeCoercionError, then
the first failing length constraint is reported. -/
def evalStrField (name : String) (minL maxL : Nat) (raw : Option RawValue) :
    Except VError String :=
  match raw with
  | none => .error ⟨[.field name], .missing, "Field required"⟩
  | some v =>
    match coerceStr v with
    | none => .error ⟨[.field name], .typeErr, "Input should be a valid string"⟩
    | some s =>
      if s.length < minL then
        .error ⟨[.field name], .lengthErr,
          "String should have at least " ++ toString minL ++ " characters"⟩
      else if maxL < s.length then
        .error ⟨[.field name], .lengthErr,
          "String should have at most " ++ toString maxL ++ " characters"⟩
      else .ok s

/-- Modelled from the spec: an optional string field (default None) with a
maximum length; absent or null ⇒ the sentinel "no value". -/
def evalOptStrField (name : String) (maxL : Nat) (raw : Option RawValue) :
    Except VError (Option String) :=
  match raw with
  | none => .ok none
  | some .null => .ok none
  | some v =>
    match coerceStr v with
    | none => .error ⟨[.field name], .typeErr, "Input should be a valid string"⟩
    | some s =>
      if maxL < s.length then
        .error ⟨[.field name], .lengthErr,
          "String should have at most " ++ toString maxL ++ " characters"⟩
      else .ok (some s)

/-- Modelled from the spec: an optional unconstrained string field with a
declared default value; absent ⇒ the default. -/
def evalStrDefault (name : String) (dflt : String) (raw : Option RawValue) :
    Except VError String :=
  match raw with
  | none => .ok dflt
  | some v =>
    match coerceStr v with
    | none => .error ⟨[.field name], .typeErr, "Input should be a valid string"⟩
    | some s => .ok s

/-- Modelled from the spec: a required integer field with inclusive
min/max bounds. -/
def evalIntField (name : String) (lo hi : Int) (raw : Option RawValue) :
    Except VError Int :=
  match raw with
  | none => .error ⟨[.field name], .missing, "Field required"⟩
  | some v =>
    match coerceInt v with
    | none => .error ⟨[.field name], .typeErr, "Input should be a valid integer"⟩
    | some n =>
      if n < lo then
        .error ⟨[.field name], .rangeErr,
          "Input should be greater than or equal to " ++ toString lo⟩
      else if hi < n then
        .error ⟨[.field name], .rangeErr,
          "Input should be less than or equal to " ++ toString hi⟩
      else .ok n

/-- Modelled from the spec: a required float field with inclusive min/max
bounds. -/
def evalFloatField (name : String) (lo hi : Rat) (raw : Option RawValue) :
    Except VError Rat :=
  match raw with
  | none => .error ⟨[.field name], .missing, "Field required"⟩
  | some v =>
    match coerceFloat v with
    | none => .error ⟨[.field name], .typeErr, "Input should be a valid number"⟩
    | some q =>
      if q < lo then
        .error ⟨[.field name], .rangeErr,
          "Input should be greater than or equal to " ++ toString lo.num⟩
      else if hi < q then
        .error ⟨[.field name], .rangeErr,
          "Input should be less than or equal to " ++ toString hi.num⟩
      else .ok q

/-- Modelled from the spec: a boolean field with a declared default; only
boolean-typed input is accepted when present. -/
def evalBoolDefault (name : String) (dflt : Bool) (raw : Option RawValue) :
    Except VError Bool :=
  match raw with
  | none => .ok dflt
  | some v =>
    match coerceBool v with
    | none => .error ⟨[.field name], .typeErr, "Input should be a valid boolean"⟩
    | some b => .ok b

/-- Modelled from the spec: a required timestamp field. -/
def evalTimeField (name : String) (raw : Option RawValue) :
    Except VError Nat :=
  match raw with
  | none => .error ⟨[.field name], .missing, "Field required"⟩
  | some v =>
    match coerceTime v with
    | none => .error ⟨[.field name], .typeErr, "Input should be a valid datetime"⟩
    | some t => .ok t

/-- Modelled from the spec: a required ContactType enum field. -/
def evalContactTypeField (name : String) (raw : Option RawValue) :
    Except VError ContactType :=
  match raw with
  | none => .error ⟨[.field name], .missing, "Field required"⟩
  | some v =>
    match coerceStr v with
    | none => .error ⟨[.field name], .typeErr,
        "Input should be radio, visual, physical or telepathic"⟩
    | some s =>
      match ContactType.fromString s with
      | none => .error ⟨[.field name], .enumErr,
          "Input should be radio, visual, physical or telepathic"⟩
      | some c => .ok c

/-- Modelled from the spec: a required Rank enum field. -/
def evalRankField (name : String) (raw : Option RawValue) :
    Except VError Rank :=
  match raw with
  | none => .error ⟨[.field name], .missing, "Field required"⟩
  | some v =>
    match coerceStr v with
    | none => .error ⟨[.field name], .typeErr,
        "Input should be cadet, officer, lieutenant, captain or commander"⟩
    | some s =>
      match Rank.fromString s with
      | none => .error ⟨[.field name], .enumErr,
          "Input should be cadet, officer, lieutenant, captain or commander"⟩
      | some r => .ok r

/-- Modelled from the spec: aggregation of one field's evaluation with the
evaluation of the remaining fields; "field evaluation does NOT
short-circuit across fields", errors are collected in declaration order. -/
def stepN {α β : Type} (r : Except (List VError) α)
    (rest : Except (List VError) β) : Except (List VError) (α × β) :=
  match r with
  | .ok a =>
    match rest with
    | .ok b => .ok (a, b)
    | .error es => .error es
  | .error es => .error (es ++ errListOf rest)

/-- A single field's result lifted to an aggregated result. -/
def one {α : Type} : Except VError α → Except (List VError) α
  | .ok a => .ok a
  | .error e => .error [e]

/-- Aggregation step for a single-error field. -/
def step {α β : Type} (r : Except VError α) (rest : Except (List VError) β) :
    Except (List VError) (α × β) := stepN (one r) rest

/-- The SpaceStation model (src/ex0/space_station.py). -/
structure SpaceStation where
  station_id : String
  name : String
  crew_size : Int
  power_level : Rat
  oxygen_level : Rat
  last_maintenance : Nat
  is_operational : Bool
  notes : Option String
  deriving DecidableEq, Repr

/-- The coerced field tuple of a SpaceStation, in declaration order. -/
abbrev StationTuple :=
  String × (String × (Int × (Rat × (Rat × (Nat × (Bool × Option String))))))

/-- Packs the coerced fields into a SpaceStation. -/
def mkSpaceStation (t : StationTuple) : SpaceStation :=
  ⟨t.1, t.2.1, t.2.2.1, t.2.2.2.1, t.2.2.2.2.1, t.2.2.2.2.2.1,
   t.2.2.2.2.2.2.1, t.2.2.2.2.2.2.2⟩

/-- Field-level evaluation of a raw SpaceStation record: every field of
src/ex0 with its declared bounds, in declaration order. -/
def stationFieldsTup (d : RawDict) : Except (List VError) StationTuple :=
  step (evalStrField "station_id" 3 10 (d.lookup "station_id"))
    (step (evalStrField "name" 1 50 (d.lookup "name"))
      (step (evalIntField "crew_size" 1 20 (d.lookup "crew_size"))
        (step (evalFloatField "power_level" 0 100 (d.lookup "power_level"))
          (step (evalFloatField "oxygen_level" 0 100 (d.lookup "oxygen_level"))
            (step (evalTimeField "last_maintenance" (d.lookup "last_maintenance"))
              (step (evalBoolDefault "is_operational" true (d.lookup "is_operational"))
                (one (evalOptStrField "notes" 200 (d.lookup "notes")))))))))

/-- The per-field error lists of a raw SpaceStation record, one slot per
declared field, in declaration order. -/
def stationSlots (d : RawDict) : List (List VError) :=
  [errsOf (evalStrField "station_id" 3 10 (d.lookup "station_id")),
   errsOf (evalStrField "name" 1 50 (d.lookup "name")),
   errsOf (evalIntField "crew_size" 1 20 (d.lookup "crew_size")),
   errsOf (evalFloatField "power_level" 0 100 (d.lookup "power_level")),
   errsOf (evalFloatField "oxygen_level" 0 100 (d.lookup "oxygen_level")),
   errsOf (evalTimeField "last_maintenance" (d.lookup "last_maintenance")),
   errsOf (evalBoolDefault "is_operational" true (d.lookup "is_operational")),
   errsOf (evalOptStrField "notes" 200 (d.lookup "notes"))]

/-- The coerced SpaceStation candidate (or the collected field errors). -/
def stationFields (d : RawDict) : Except (List VError) SpaceStation :=
  Except.map mkSpaceStation (stationFieldsTup d)

/-- Validation of a raw SpaceStation record (src/ex0 declares no business
rules). -/
def validateSpaceStation (d : RawDict) : Except (List VError) SpaceStation :=
  stationFields d

/-- The AlienContact model (src/ex1/alien_contact.py). -/
structure AlienContact where
  contact_id : String
  timestamp : Nat
  location : String
  contact_type : ContactType
  signal_strength : Rat
  duration_minutes : Int
  witness_count : Int
  message_received : Option String
  is_verified : Bool
  deriving DecidableEq, Repr

/-- Python truthiness of an optional string: None and the empty string are
both falsy (`not self.message_received` in src/ex1). -/
def optStrFalsy : Option String → Bool
  | none => true
  | some s => s.isEmpty

/-- The four business-rule messages of src/ex1, in declaration order. -/
def acMsg : Fin 4 → String
  | 0 => "Contact ID must start with \x27AC\x27"
  | 1 => "Physical contact reports must be verified"
  | 2 => "Telepathic contact requires at least 3 witnesses"
  | 3 => "Strong signals (> 7.0) should include received messages"

/-- The four business-rule violation conditions of
AlienContact.validate_business_rules (src/ex1), in declaration order. -/
def acRuleBroken (c : AlienContact) : Fin 4 → Bool
  | 0 => !(strStartsWith c.contact_id "AC")
  | 1 => c.contact_type == ContactType.physical && !c.is_verified
  | 2 => c.contact_type == ContactType.telepathic && decide (c.witness_count < 3)
  | 3 => decide ((7 : Rat) < c.signal_strength) && optStrFalsy c.message_received

/-- AlienContact.validate_business_rules (src/ex1): the rules run in
declaration order and the first violated rule's message is raised. -/
def AlienContact.validate_business_rules (c : AlienContact) : Option String :=
  if acRuleBroken c 0 then some (acMsg 0)
  else if acRuleBroken c 1 then some (acMsg 1)
  else if acRuleBroken c 2 then some (acMsg 2)
  else if acRuleBroken c 3 then some (acMsg 3)
  else none

/-- The coerced field tuple of an AlienContact, in declaration order. -/
abbrev ContactTuple :=
  String × (Nat × (String × (ContactType × (Rat × (Int × (Int × (Option String × Bool)))))))

/-- Packs the coerced fields into an AlienContact. -/
def mkAlienContact (t : ContactTuple) : AlienContact :=
  ⟨t.1, t.2.1, t.2.2.1, t.2.2.2.1, t.2.2.2.2.1, t.2.2.2.2.2.1,
   t.2.2.2.2.2.2.1, t.2.2.2.2.2.2.2.1, t.2.2.2.2.2.2.2.2⟩

/-- Field-level evaluation of a raw AlienContact record: every field of
src/ex1 with its declared bounds, in declaration order. -/
def contactFieldsTup (d : RawDict) : Except (List VError) ContactTuple :=
  step (evalStrField "contact_id" 5 15 (d.lookup "contact_id"))
    (step (evalTimeField "timestamp" (d.lookup "timestamp"))
      (step (evalStrField "location" 3 100 (d.lookup "location"))
        (step (evalContactTypeField "contact_type" (d.lookup "contact_type"))
          (step (evalFloatField "signal_strength" 0 10 (d.lookup "signal_strength"))
            (step (evalIntField "duration_minutes" 1 1440 (d.lookup "duration_minutes"))
              (step (evalIntField "witness_count" 1 100 (d.lookup "witness_count"))
                (step (evalOptStrField "message_received" 500 (d.lookup "message_received"))
                  (one (evalBoolDefault "is_verified" false (d.lookup "is_verified"))))))))))

/-- The per-field error lists of a raw AlienContact record. -/
def contactSlots (d : RawDict) : List (List VError) :=
  [errsOf (evalStrField "contact_id" 5 15 (d.lookup "contact_id")),
   errsOf (evalTimeField "timestamp" (d.lookup "timestamp")),
   errsOf (evalStrField "location" 3 100 (d.lookup "location")),
   errsOf (evalContactTypeField "contact_type" (d.lookup "contact_type")),
   errsOf (evalFloatField "signal_strength" 0 10 (d.lookup "signal_strength")),
   errsOf (evalIntField "duration_minutes" 1 1440 (d.lookup "duration_minutes")),
   errsOf (evalIntField "witness_count" 1 100 (d.lookup "witness_count")),
   errsOf (evalOptStrField "message_received" 500 (d.lookup "message_received")),
   errsOf (evalBoolDefault "is_verified" false (d.lookup "is_verified"))]

/-- The coerced AlienContact candidate (or the collected field errors). -/
def contactFields (d : RawDict) : Except (List VError) AlienContact :=
  Except.map mkAlienContact (contactFieldsTup d)

/-- Validation of a raw AlienContact record: all fields are coerced and
checked first; only if every field succeeded do the business rules run on
the fully-coerced candidate, and the first failing rule is reported as the
single entry of the report. -/
def validateAlienContact (d : RawDict) : Except (List VError) AlienContact :=
  match contactFields d with
  | .error es => .error es
  | .ok c =>
    match AlienContact.validate_business_rules c with
    | some msg => .error [⟨[], .ruleErr, msg⟩]
    | none => .ok c

/-- The CrewMember model (src/ex2/space_crew.py). -/
structure CrewMember where
  member_id : String
  name : String
  rank : Rank
  age : Int
  specialization : String
  years_experience : Int
  is_active : Bool
  deriving DecidableEq, Repr

/-- The coerced field tuple of a CrewMember, in declaration order. -/
abbrev CrewTuple :=
  String × (String × (Rank × (Int × (String × (Int × Bool)))))

/-- Packs the coerced fields into a CrewMember. -/
def mkCrewMember (t : CrewTuple) : CrewMember :=
  ⟨t.1, t.2.1, t.2.2.1, t.2.2.2.1, t.2.2.2.2.1, t.2.2.2.2.2.1, t.2.2.2.2.2.2⟩

/-- Field-level evaluation of a raw CrewMember record: every field of the
CrewMember model in src/ex2 with its declared bounds. -/
def crewFieldsTup (d : RawDict) : Except (List VError) CrewTuple :=
  step (evalStrField "member_id" 3 10 (d.lookup "member_id"))
    (step (evalStrField "name" 2 50 (d.lookup "name"))
      (step (evalRankField "rank" (d.lookup "rank"))
        (step (evalIntField "age" 18 80 (d.lookup "age"))
          (step (evalStrField "specialization" 3 30 (d.lookup "specialization"))
            (step (evalIntField "years_experience" 0 50 (d.lookup "years_experience"))
              (one (evalBoolDefault "is_active" true (d.lookup "is_active"))))))))

/-- The per-field error lists of a raw CrewMember record. -/
def crewSlots (d : RawDict) : List (List VError) :=
  [errsOf (evalStrField "member_id" 3 10 (d.lookup "member_id")),
   errsOf (evalStrField "name" 2 50 (d.lookup "name")),
   errsOf (evalRankField "rank" (d.lookup "rank")),
   errsOf (evalIntField "age" 18 80 (d.lookup "age")),
   errsOf (evalStrField "specialization" 3 30 (d.lookup "specialization")),
   errsOf (evalIntField "years_experience" 0 50 (d.lookup "years_experience")),
   errsOf (evalBoolDefault "is_active" true (d.lookup "is_active"))]

/-- Validation of a raw CrewMember record (no business rules on the nested
model). -/
def validateCrewMember (d : RawDict) : Except (List VError) CrewMember :=
  Except.map mkCrewMember (crewFieldsTup d)

/-- Adds a path position in front of a nested error. -/
def preErr (pre : List PathSeg) (e : VError) : VError :=
  ⟨pre ++ e.path, e.kind, e.msg⟩

/-- Modelled from the spec: validation of one element of a list-of-object
field; element failures are indexed by position and path-qualified. -/
def crewElemResult (name : String) (i : Nat) (x : RawValue) :
    Except (List VError) CrewMember :=
  match x with
  | .obj dx =>
    match validateCrewMember dx with
    | .ok m => .ok m
    | .error es => .error (es.map (preErr [.field name, .idx i]))
  | _ => .error [⟨[.field name, .idx i], .typeErr, "Input should be a valid dictionary"⟩]

/-- The indexed element results of a list-of-object field. -/
def crewResults (name : String) (i : Nat) : List RawValue →
    List (Except (List VError) CrewMember)
  | [] => []
  | x :: xs => crewElemResult name i x :: crewResults name (i + 1) xs

/-- Modelled from the spec: aggregation over list elements — failures of
every element are collected, in element order. -/
def collectElems : List (Except (List VError) CrewMember) →
    Except (List VError) (List CrewMember)
  | [] => .ok []
  | r :: rs =>
    match r with
    | .ok m =>
      match collectElems rs with
      | .ok ms => .ok (m :: ms)
      | .error es => .error es
    | .error es => .error (es ++ errListOf (collectElems rs))

/-- Modelled from the spec: a required list-of-object field; the list's own
length bounds are checked before element validation. -/
def evalCrewField (name : String) (minL maxL : Nat) (raw : Option RawValue) :
    Except (List VError) (List CrewMember) :=
  match raw with
  | none => .error [⟨[.field name], .missing, "Field required"⟩]
  | some (.list xs) =>
    if xs.length < minL then
      .error [⟨[.field name], .lengthErr,
        "List should have at least " ++ toString minL ++ " items"⟩]
    else if maxL < xs.length then
      .error [⟨[.field name], .lengthErr,
        "List should have at most " ++ toString maxL ++ " items"⟩]
    else collectElems (crewResults name 0 xs)
  | some _ => .error [⟨[.field name], .typeErr, "Input should be a valid list"⟩]

/-- The SpaceMission model (src/ex2/space_crew.py). -/
structure SpaceMission where
  mission_id : String
  mission_name : String
  destination : String
  launch_date : Nat
  duration_days : Int
  crew : List CrewMember
  mission_status : String
  budget_millions : Rat
  deriving DecidableEq, Repr

/-- `any(m.rank in [Rank.CAPTAIN, Rank.COMMANDER] for m in crew)` of
src/ex2. -/
def hasLeader (crew : List CrewMember) : Bool :=
  crew.any (fun m => m.rank == Rank.captain || m.rank == Rank.commander)

/-- `all(m.is_active for m in crew)` of src/ex2. -/
def allActive (crew : List CrewMember) : Bool :=
  crew.all (fun m => m.is_active)

/-- The four business-rule messages of src/ex2, in declaration order. -/
def smMsg : Fin 4 → String
  | 0 => "Mission ID must start with \x27M\x27"
  | 1 => "Mission must have at least one Commander or Captain"
  | 2 => "Long missions need 50% experienced crew (5+ years)"
  | 3 => "All crew members must be active"

/-- The four business-rule violation conditions of
SpaceMission.validate_mission_safety (src/ex2), in declaration order.
Python compares `len(experienced) < len(crew) / 2` with real division;
`2 * e < n` is the exact integer equivalent. -/
def smRuleBroken (m : SpaceMission) : Fin 4 → Bool
  | 0 => !(strStartsWith m.mission_id "M")
  | 1 => !(hasLeader m.crew)
  | 2 => decide (365 < m.duration_days) &&
      decide (2 * (m.crew.filter (fun c => decide (5 ≤ c.years_experience))).length
        < m.crew.length)
  | 3 => !(allActive m.crew)

/-- SpaceMission.validate_mission_safety (src/ex2): the rules run in
declaration order and the first violated rule's message is raised. -/
def SpaceMission.validate_mission_safety (m : SpaceMission) : Option String :=
  if smRuleBroken m 0 then some (smMsg 0)
  else if smRuleBroken m 1 then some (smMsg 1)
  else if smRuleBroken m 2 then some (smMsg 2)
  else if smRuleBroken m 3 then some (smMsg 3)
  else none

/-- The coerced field tuple of a SpaceMission, in declaration order. -/
abbrev MissionTuple :=
  String × (String × (String × (Nat × (Int × (List CrewMember × (String × Rat))))))

/-- Packs the coerced fields into a SpaceMission. -/
def mkSpaceMission (t : MissionTuple) : SpaceMission :=
  ⟨t.1, t.2.1, t.2.2.1, t.2.2.2.1, t.2.2.2.2.1, t.2.2.2.2.2.1,
   t.2.2.2.2.2.2.1, t.2.2.2.2.2.2.2⟩

/-- Field-level evaluation of a raw SpaceMission record: every field of
src/ex2 with its declared bounds, in declaration order; the nested crew
list is validated element by element. -/
def missionFieldsTup (d : RawDict) : Except (List VError) MissionTuple :=
  step (evalStrField "mission_id" 5 15 (d.lookup "mission_id"))
    (step (evalStrField "mission_name" 3 100 (d.lookup "mission_name"))
      (step (evalStrField "destination" 3 50 (d.lookup "destination"))
        (step (evalTimeField "launch_date" (d.lookup "launch_date"))
          (step (evalIntField "duration_days" 1 3650 (d.lookup "duration_days"))
            (stepN (evalCrewField "crew" 1 12 (d.lookup "crew"))
              (step (evalStrDefault "mission_status" "planned" (d.lookup "mission_status"))
                (one (evalFloatField "budget_millions" 1 10000 (d.lookup "budget_millions")))))))))

/-- The per-field error lists of a raw SpaceMission record; the crew slot
holds the path-qualified nested errors, depth-first. -/
def missionSlots (d : RawDict) : List (List VError) :=
  [errsOf (evalStrField "mission_id" 5 15 (d.lookup "mission_id")),
   errsOf (evalStrField "mission_name" 3 100 (d.lookup "mission_name")),
   errsOf (evalStrField "destination" 3 50 (d.lookup "destination")),
   errsOf (evalTimeField "launch_date" (d.lookup "launch_date")),
   errsOf (evalIntField "duration_days" 1 3650 (d.lookup "duration_days")),
   errListOf (evalCrewField "crew" 1 12 (d.lookup "crew")),
   errsOf (evalStrDefault "mission_status" "planned" (d.lookup "mission_status")),
   errsOf (evalFloatField "budget_millions" 1 10000 (d.lookup "budget_millions"))]

/-- The coerced SpaceMission candidate (or the collected field errors). -/
def missionFields (d : RawDict) : Except (List VError) SpaceMission :=
  Except.map mkSpaceMission (missionFieldsTup d)

/-- Validation of a raw SpaceMission record: all fields (including the
nested crew list) are coerced and checked first; only if every field
succeeded do the safety rules run on the fully-coerced candidate, and the
first failing rule is reported as the single entry of the report. -/
def validateSpaceMission (d : RawDict) : Except (List VError) SpaceMission :=
  match missionFields d with
  | .error es => .error es
  | .ok m =>
    match SpaceMission.validate_mission_safety m with
    | some msg => .error [⟨[], .ruleErr, msg⟩]
    | none => .ok m

/-- The raw value of the i-th crew element of a raw SpaceMission record. -/
def crewRawAt (d : RawDict) (i : Nat) : Option RawValue :=
  match d.lookup "crew" with
  | some (RawValue.list xs) => xs[i]?
  | _ => none

/-- A station record with two independently invalid fields: an empty name
(min length 1) and crew_size 25 (max 20). -/
def c1dW : RawDict :=
  [("station_id", RawValue.str "ISS001"),
   ("name", RawValue.str ""),
   ("crew_size", RawValue.int 25),
   ("power_level", RawValue.int 85),
   ("oxygen_level", RawValue.int 92),
   ("last_maintenance", RawValue.time 20240120120000)]

/-- The length error produced for the empty name in `c1dW`. -/
def c1e1 : VError :=
  ⟨[.field "name"], .lengthErr, "String should have at least 1 characters"⟩

/-- The range error produced for crew_size 25 in `c1dW`. -/
def c1e2 : VError :=
  ⟨[.field "crew_size"], .rangeErr, "Input should be less than or equal to 20"⟩

/-- A contact record whose fields all coerce but which violates rule 1
(id does not start with AC) and rule 3 (telepathic with one witness). -/
def c2dW : RawDict :=
  [("contact_id", RawValue.str "XY_2024_001"),
   ("timestamp", RawValue.time 20240120143000),
   ("location", RawValue.str "Area 51, Nevada"),
   ("contact_type", RawValue.str "telepathic"),
   ("signal_strength", RawValue.int 5),
   ("duration_minutes", RawValue.int 45),
   ("witness_count", RawValue.int 1),
   ("message_received", RawValue.str "hello"),
   ("is_verified", RawValue.bool true)]

/-- The coerced candidate of `c2dW`. -/
def c2cW : AlienContact :=
  ⟨"XY_2024_001", 20240120143000, "Area 51, Nevada",
    ContactType.telepathic, 5, 45, 1, some "hello", true⟩

/-- A contact record with a field-level failure: contact_id has length 2,
below the declared minimum of 5. -/
def c3dW : RawDict :=
  [("contact_id", RawValue.str "AB"),
   ("timestamp", RawValue.time 20240120143000),
   ("location", RawValue.str "Area 51, Nevada"),
   ("contact_type", RawValue.str "radio"),
   ("signal_strength", RawValue.int 5),
   ("duration_minutes", RawValue.int 45),
   ("witness_count", RawValue.int 5),
   ("message_received", RawValue.str "hello"),
   ("is_verified", RawValue.bool true)]

/-- The report produced for `c3dW`: a single length error, no rule error. -/
def c3es : List VError :=
  [⟨[.field "contact_id"], .lengthErr, "String should have at least 5 characters"⟩]

/-- Crew member raw records used by the mission examples: a captain with 4
years of experience and a cadet with 0 (0 of 2 members have 5 or more). -/
def crewCaptain4 : RawValue :=
  RawValue.obj
    [("member_id", RawValue.str "CM001"),
     ("name", RawValue.str "Sarah Williams"),
     ("rank", RawValue.str "captain"),
     ("age", RawValue.int 43),
     ("specialization", RawValue.str "Mission Command"),
     ("years_experience", RawValue.int 4),
     ("is_active", RawValue.bool true)]

/-- The cadet companion record (0 years of experience). -/
def crewCadet0 : RawValue :=
  RawValue.obj
    [("member_id", RawValue.str "CM003"),
     ("name", RawValue.str "Anna Jones"),
     ("rank", RawValue.str "cadet"),
     ("age", RawValue.int 35),
     ("specialization", RawValue.str "Communications"),
     ("years_experience", RawValue.int 0),
     ("is_active", RawValue.bool true)]

/-- The coerced captain. -/
def memCaptain4 : CrewMember :=
  ⟨"CM001", "Sarah Williams", Rank.captain, 43, "Mission Command", 4, true⟩

/-- The coerced cadet. -/
def memCadet0 : CrewMember :=
  ⟨"CM003", "Anna Jones", Rank.cadet, 35, "Communications", 0, true⟩

/-- A long mission (451 days) with a valid M-prefixed id, a leader, all
active, and 0 of 2 experienced members. -/
def c4dW : RawDict :=
  [("mission_id", RawValue.str "M2024_TITAN"),
   ("mission_name", RawValue.str "Solar Observatory Research Mission"),
   ("destination", RawValue.str "Solar Observatory"),
   ("launch_date", RawValue.time 20240330000000),
   ("duration_days", RawValue.int 451),
   ("crew", RawValue.list [crewCaptain4, crewCadet0]),
   ("mission_status", RawValue.str "planned"),
   ("budget_millions", RawValue.int 2208)]

/-- The coerced candidate of `c4dW`. -/
def c4mW : SpaceMission :=
  ⟨"M2024_TITAN", "Solar Observatory Research Mission", "Solar Observatory",
    20240330000000, 451, [memCaptain4, memCadet0], "planned", 2208⟩

/-- The same mission and crew with duration_days 100. -/
def c4dV : RawDict :=
  [("mission_id", RawValue.str "M2024_TITAN"),
   ("mission_name", RawValue.str "Solar Observatory Research Mission"),
   ("destination", RawValue.str "Solar Observatory"),
   ("launch_date", RawValue.time 20240330000000),
   ("duration_days", RawValue.int 100),
   ("crew", RawValue.list [crewCaptain4, crewCadet0]),
   ("mission_status", RawValue.str "planned"),
   ("budget_millions", RawValue.int 2208)]

/-- The coerced candidate of `c4dV`. -/
def c4mV : SpaceMission :=
  ⟨"M2024_TITAN", "Solar Observatory Research Mission", "Solar Observatory",
    20240330000000, 100, [memCaptain4, memCadet0], "planned", 2208⟩

/-- The long mission of `c4dW` but with an id that does not start with M:
every premise of claim C4 still holds (fields coerce, leader present, all
active, 451 days, under-experienced crew), yet the report is the prefix
rule error. -/
def c4dX : RawDict :=
  [("mission_id", RawValue.str "X2024_TITAN"),
   ("mission_name", RawValue.str "Solar Observatory Research Mission"),
   ("destination", RawValue.str "Solar Observatory"),
   ("launch_date", RawValue.time 20240330000000),
   ("duration_days", RawValue.int 451),
   ("crew", RawValue.list [crewCaptain4, crewCadet0]),
   ("mission_status", RawValue.str "planned"),
   ("budget_millions", RawValue.int 2208)]

/-- The coerced candidate of `c4dX`. -/
def c4mX : SpaceMission :=
  ⟨"X2024_TITAN", "Solar Observatory Research Mission", "Solar Observatory",
    20240330000000, 451, [memCaptain4, memCadet0], "planned", 2208⟩

/-- A raw crew record whose sole member is a cadet. -/
def crewSoloCadet : RawValue :=
  RawValue.obj
    [("member_id", RawValue.str "CM999"),
     ("name", RawValue.str "Noob Saibot"),
     ("rank", RawValue.str "cadet"),
     ("age", RawValue.int 20),
     ("specialization", RawValue.str "Cleaning"),
     ("years_experience", RawValue.int 0),
     ("is_active", RawValue.bool true)]

/-- The coerced solo cadet. -/
def memSoloCadet : CrewMember :=
  ⟨"CM999", "Noob Saibot", Rank.cadet, 20, "Cleaning", 0, true⟩

/-- A mission with a valid M-prefixed id whose sole crew member is a
cadet. -/
def c5dW : RawDict :=
  [("mission_id", RawValue.str "M2024_CLEAN"),
   ("mission_name", RawValue.str "Orbital Cleanup"),
   ("destination", RawValue.str "Low Earth Orbit"),
   ("launch_date", RawValue.time 20240330000000),
   ("duration_days", RawValue.int 100),
   ("crew", RawValue.list [crewSoloCadet]),
   ("mission_status", RawValue.str "planned"),
   ("budget_millions", RawValue.int 10)]

/-- The coerced candidate of `c5dW`. -/
def c5mW : SpaceMission :=
  ⟨"M2024_CLEAN", "Orbital Cleanup", "Low Earth Orbit",
    20240330000000, 100, [memSoloCadet], "planned", 10⟩

/-- The mission of `c5dW` but with an id that does not start with M: the
fields still coerce and no crew member is a captain or commander, yet the
report is the prefix rule error, not the leadership error. -/
def c5dX : RawDict :=
  [("mission_id", RawValue.str "X2024_CLEAN"),
   ("mission_name", RawValue.str "Orbital Cleanup"),
   ("destination", RawValue.str "Low Earth Orbit"),
   ("launch_date", RawValue.time 20240330000000),
   ("duration_days", RawValue.int 100),
   ("crew", RawValue.list [crewSoloCadet]),
   ("mission_status", RawValue.str "planned"),
   ("budget_millions", RawValue.int 10)]

/-- The coerced candidate of `c5dX`. -/
def c5mX : SpaceMission :=
  ⟨"X2024_CLEAN", "Orbital Cleanup", "Low Earth Orbit",
    20240330000000, 100, [memSoloCadet], "planned", 10⟩

/-- A crew member record that omits is_active entirely. -/
def c10dx : RawDict :=
  [("member_id", RawValue.str "CM777"),
   ("name", RawValue.str "Solo Artist"),
   ("rank", RawValue.str "officer"),
   ("age", RawValue.int 30),
   ("specialization", RawValue.str "Navigation"),
   ("years_experience", RawValue.int 6)]

/-- The coerced member of `c10dx`: is_active defaulted to true. -/
def c10m : CrewMember :=
  ⟨"CM777", "Solo Artist", Rank.officer, 30, "Navigation", 6, true⟩

theorem errListOf_one {α : Type} (r : Except VError α) :
    errListOf (one r) = errsOf r := by
  cases r <;> rfl

theorem errListOf_stepN {α β : Type} (r : Except (List VError) α)
    (rest : Except (List VError) β) :
    errListOf (stepN r rest) = errListOf r ++ errListOf rest := by
  cases r with
  | error es => rfl
  | ok a => cases rest <;> rfl

theorem errListOf_step {α β : Type} (r : Except VError α)
    (rest : Except (List VError) β) :
    errListOf (step r rest) = errsOf r ++ errListOf rest := by
  rw [step, errListOf_stepN, errListOf_one]

theorem errListOf_map {α β : Type} (f : α → β) (x : Except (List VError) α) :
    errListOf (Except.map f x) = errListOf x := by
  cases x <;> rfl

theorem error_of_errListOf {α : Type} (x : Except (List VError) α)
    (h : errListOf x ≠ []) : x = .error (errListOf x) := by
  cases x with
  | error es => rfl
  | ok a => exact absurd rfl h

theorem one_ok_iff {α : Type} (r : Except VError α) (a : α) :
    one r = .ok a ↔ r = .ok a := by
  cases r <;> simp [one]

theorem stepN_ok_iff {α β : Type} (r : Except (List VError) α)
    (rest : Except (List VError) β) (a : α) (b : β) :
    stepN r rest = .ok (a, b) ↔ r = .ok a ∧ rest = .ok b := by
  cases r with
  | error es => simp [stepN]
  | ok x => cases rest <;> simp [stepN]

theorem step_ok_iff {α β : Type} (r : Except VError α)
    (rest : Except (List VError) β) (a : α) (b : β) :
    step r rest = .ok (a, b) ↔ r = .ok a ∧ rest = .ok b := by
  rw [step, stepN_ok_iff, one_ok_iff]

theorem stationFields_errList (d : RawDict) :
    errListOf (stationFields d) = (stationSlots d).flatten := by
  simp [stationFields, stationFieldsTup, stationSlots, errListOf_map,
    errListOf_step, errListOf_one]

theorem contactFields_errList (d : RawDict) :
    errListOf (contactFields d) = (contactSlots d).flatten := by
  simp [contactFields, contactFieldsTup, contactSlots, errListOf_map,
    errListOf_step, errListOf_one]

theorem validateCrewMember_errList (d : RawDict) :
    errListOf (validateCrewMember d) = (crewSlots d).flatten := by
  simp [validateCrewMember, crewFieldsTup, crewSlots, errListOf_map,
    errListOf_step, errListOf_one]

theorem missionFields_errList (d : RawDict) :
    errListOf (missionFields d) = (missionSlots d).flatten := by
  simp [missionFields, missionFieldsTup, missionSlots, errListOf_map,
    errListOf_step, errListOf_stepN, errListOf_one]

/-- An element of an in-range sub-list occurs in the flattening. -/
theorem mem_flatten_of_getElem {α : Type} (L : List (List α)) (i : Nat)
    (l : List α) (a : α) (hi : L[i]? = some l) (ha : a ∈ l) :
    a ∈ L.flatten :=
  List.mem_flatten.mpr ⟨l, List.getElem?_mem hi, ha⟩

/-- Entries taken from sub-lists at increasing indices occur in the
flattening at increasing positions. -/
theorem flatten_order {α : Type} (L : List (List α)) (i j : Nat) (a b : α)
    (hij : i < j) (hi : ∃ li, L[i]? = some li ∧ a ∈ li)
    (hj : ∃ lj, L[j]? = some lj ∧ b ∈ lj) :
    ∃ (k m : Nat), k < m ∧ (L.flatten)[k]? = some a ∧ (L.flatten)[m]? = some b := by
  induction L generalizing i j with
  | nil =>
    obtain ⟨li, hli, _⟩ := hi
    simp at hli
  | cons hd tl ih =>
    cases j with
    | zero => exact absurd hij (Nat.not_lt_zero _)
    | succ j' =>
      obtain ⟨lj, hlj, hblj⟩ := hj
      simp only [List.getElem?_cons_succ] at hlj
      cases i with
      | zero =>
        obtain ⟨li, hli, hali⟩ := hi
        simp only [List.getElem?_cons_zero, Option.some.injEq] at hli
        subst hli
        obtain ⟨k, hk, hka⟩ := List.mem_iff_getElem.mp hali
        have hb : b ∈ tl.flatten := mem_flatten_of_getElem tl j' lj b hlj hblj
        obtain ⟨m, hm, hmb⟩ := List.mem_iff_getElem.mp hb
        refine ⟨k, hd.length + m, ?_, ?_, ?_⟩
        · exact Nat.lt_of_lt_of_le hk (Nat.le_add_right _ _)
        · rw [List.flatten_cons, List.getElem?_append, if_pos hk]
          exact (List.getElem?_eq_getElem hk).trans (by rw [hka])
        · rw [List.flatten_cons, List.getElem?_append,
            if_neg (by omega)]
          simp only [Nat.add_sub_cancel_left]
          exact (List.getElem?_eq_getElem hm).trans (by rw [hmb])
      | succ i' =>
        obtain ⟨li, hli, hali⟩ := hi
        simp only [List.getElem?_cons_succ] at hli
        obtain ⟨k, m, hkm, hka, hmb⟩ :=
          ih i' j' (Nat.lt_of_succ_lt_succ hij) ⟨li, hli, hali⟩ ⟨lj, hlj, hblj⟩
        refine ⟨hd.length + k, hd.length + m, ?_, ?_, ?_⟩
        · exact Nat.add_lt_add_left hkm _
        · rw [List.flatten_cons, List.getElem?_append, if_neg (by omega)]
          simpa using hka
        · rw [List.flatten_cons, List.getElem?_append, if_neg (by omega)]
          simpa using hmb

/-- Whenever any field slot of a raw SpaceStation record is non-empty,
validation returns exactly the declaration-ordered concatenation of the
per-field error lists. -/
theorem validateSpaceStation_error_of_slots (d : RawDict)
    (h : (stationSlots d).flatten ≠ []) :
    validateSpaceStation d = .error ((stationSlots d).flatten) := by
  have h3 : stationFields d = .error ((stationSlots d).flatten) := by
    rw [← stationFields_errList]
    exact error_of_errListOf _ (by rw [stationFields_errList]; exact h)
  rw [validateSpaceStation, h3]

/-- Whenever any field slot of a raw SpaceMission record is non-empty,
validation returns exactly the declaration-ordered concatenation of the
per-field error lists (no rule runs). -/
theorem validateSpaceMission_error_of_slots (d : RawDict)
    (h : (missionSlots d).flatten ≠ []) :
    validateSpaceMission d = .error ((missionSlots d).flatten) := by
  have h3 : missionFields d = .error ((missionSlots d).flatten) := by
    rw [← missionFields_errList]
    exact error_of_errListOf _ (by rw [missionFields_errList]; exact h)
  simp [validateSpaceMission, h3]

/-- C1: for every raw input in which at least two distinct fields are
independently invalid, validation fails and the returned report contains
one error entry for each invalid field — not only the first — ordered by
field declaration order (nested crew errors sit depth-first inside the
crew slot).  Stated for the SpaceStation and SpaceMission schemas: if the
per-field error slots at declaration positions i < j both contain an
error, validation fails with a report holding both errors, in that
order. -/
theorem c1_field_aggregation :
    (∀ (d : RawDict) (i j : Nat) (ei ej : VError) (li lj : List VError),
      i < j → (stationSlots d)[i]? = some li → ei ∈ li →
      (stationSlots d)[j]? = some lj → ej ∈ lj →
      ∃ es, validateSpaceStation d = Except.error es ∧
        ∃ (k m : Nat), k < m ∧ es[k]? = some ei ∧ es[m]? = some ej)
  ∧ (∀ (d : RawDict) (i j : Nat) (ei ej : VError) (li lj : List VError),
      i < j → (missionSlots d)[i]? = some li → ei ∈ li →
      (missionSlots d)[j]? = some lj → ej ∈ lj →
      ∃ es, validateSpaceMission d = Except.error es ∧
        ∃ (k m : Nat), k < m ∧ es[k]? = some ei ∧ es[m]? = some ej) := by
  constructor
  · intro d i j ei ej li lj hij hi hei hj hej
    have hne : (stationSlots d).flatten ≠ [] :=
      List.ne_nil_of_mem (mem_flatten_of_getElem _ i li ei hi hei)
    exact ⟨(stationSlots d).flatten, validateSpaceStation_error_of_slots d hne,
      flatten_order _ i j ei ej hij ⟨li, hi, hei⟩ ⟨lj, hj, hej⟩⟩
  · intro d i j ei ej li lj hij hi hei hj hej
    have hne : (missionSlots d).flatten ≠ [] :=
      List.ne_nil_of_mem (mem_flatten_of_getElem _ i li ei hi hei)
    exact ⟨(missionSlots d).flatten, validateSpaceMission_error_of_slots d hne,
      flatten_order _ i j ei ej hij ⟨li, hi, hei⟩ ⟨lj, hj, hej⟩⟩

/-- Witness for C1 at a concrete station record with two invalid fields
(empty name, crew_size 25): both hypotheses hold and the report lists both
errors in declaration order. -/
theorem c1_field_aggregation_witness :
    (1 : Nat) < 2 ∧ (stationSlots c1dW)[1]? = some [c1e1] ∧ c1e1 ∈ [c1e1] ∧
    (stationSlots c1dW)[2]? = some [c1e2] ∧ c1e2 ∈ [c1e2] ∧
    ∃ es, validateSpaceStation c1dW = Except.error es ∧
      ∃ (k m : Nat), k < m ∧ es[k]? = some c1e1 ∧ es[m]? = some c1e2 :=
  ⟨by decide, by decide, by decide, by decide, by decide,
    c1_field_aggregation.1 c1dW 1 2 c1e1 c1e2 [c1e1] [c1e2]
      (by decide) (by decide) (by decide) (by decide) (by decide)⟩

/-- C2: for every input whose fields all coerce successfully but which
violates two or more business rules, the returned report contains exactly
one rule error — the one for the first violated rule in declaration order
(AlienContact: prefix, physical-verified, telepathic-witnesses,
strong-signal-message; SpaceMission: prefix, leadership, experience,
all-active); subsequent rules are not evaluated. -/
theorem c2_rule_fail_fast :
    (∀ (d : RawDict) (c : AlienContact) (i j : Fin 4),
      contactFields d = Except.ok c → i < j →
      acRuleBroken c i = true → acRuleBroken c j = true →
      (∀ k, k < i → acRuleBroken c k = false) →
      validateAlienContact d = Except.error [⟨[], ErrKind.ruleErr, acMsg i⟩])
  ∧ (∀ (d : RawDict) (m : SpaceMission) (i j : Fin 4),
      missionFields d = Except.ok m → i < j →
      smRuleBroken m i = true → smRuleBroken m j = true →
      (∀ k, k < i → smRuleBroken m k = false) →
      validateSpaceMission d = Except.error [⟨[], ErrKind.ruleErr, smMsg i⟩]) := by
  constructor
  · intro d c i j hok hij hbi hbj hk
    have hr : AlienContact.validate_business_rules c = some (acMsg i) := by
      fin_cases i
      · have hb0 : acRuleBroken c 0 = true := hbi
        simp [AlienContact.validate_business_rules, hb0]
      · have hb1 : acRuleBroken c 1 = true := hbi
        have h0 := hk 0 (by decide)
        simp [AlienContact.validate_business_rules, h0, hb1]
      · have hb2 : acRuleBroken c 2 = true := hbi
        have h0 := hk 0 (by decide)
        have h1 := hk 1 (by decide)
        simp [AlienContact.validate_business_rules, h0, h1, hb2]
      · have hb3 : acRuleBroken c 3 = true := hbi
        have h0 := hk 0 (by decide)
        have h1 := hk 1 (by decide)
        have h2 := hk 2 (by decide)
        simp [AlienContact.validate_business_rules, h0, h1, h2, hb3]
    rw [validateAlienContact, hok]
    simp [hr]
  · intro d m i j hok hij hbi hbj hk
    have hr : SpaceMission.validate_mission_safety m = some (smMsg i) := by
      fin_cases i
      · have hb0 : smRuleBroken m 0 = true := hbi
        simp [SpaceMission.validate_mission_safety, hb0]
      · have hb1 : smRuleBroken m 1 = true := hbi
        have h0 := hk 0 (by decide)
        simp [SpaceMission.validate_mission_safety, h0, hb1]
      · have hb2 : smRuleBroken m 2 = true := hbi
        have h0 := hk 0 (by decide)
        have h1 := hk 1 (by decide)
        simp [SpaceMission.validate_mission_safety, h0, h1, hb2]
      · have hb3 : smRuleBroken m 3 = true := hbi
        have h0 := hk 0 (by decide)
        have h1 := hk 1 (by decide)
        have h2 := hk 2 (by decide)
        simp [SpaceMission.validate_mission_safety, h0, h1, h2, hb3]
    rw [validateSpaceMission, hok]
    simp [hr]

/-- Witness for C2 at a concrete contact record violating the prefix rule
and the telepathic-witnesses rule: the report holds exactly the prefix
rule's error. -/
theorem c2_rule_fail_fast_witness :
    contactFields c2dW = Except.ok c2cW ∧ (0 : Fin 4) < 2 ∧
    acRuleBroken c2cW 0 = true ∧ acRuleBroken c2cW 2 = true ∧
    (∀ k, k < (0 : Fin 4) → acRuleBroken c2cW k = false) ∧
    validateAlienContact c2dW = Except.error [⟨[], ErrKind.ruleErr, acMsg 0⟩] :=
  ⟨by decide, by decide, by decide, by decide, by decide,
    c2_rule_fail_fast.1 c2dW c2cW 0 2 (by decide) (by decide)
      (by decide) (by decide) (by decide)⟩

theorem evalStrField_kind (n : String) (a b : Nat) (r : Option RawValue)
    (e : VError) (h : e ∈ errsOf (evalStrField n a b r)) :
    e.kind ≠ ErrKind.ruleErr := by
  unfold evalStrField at h
  repeat' split at h
  all_goals simp [errsOf] at h
  all_goals (subst h; simp)

theorem evalOptStrField_kind (n : String) (b : Nat) (r : Option RawValue)
    (e : VError) (h : e ∈ errsOf (evalOptStrField n b r)) :
    e.kind ≠ ErrKind.ruleErr := by
  unfold evalOptStrField at h
  repeat' split at h
  all_goals simp [errsOf] at h
  all_goals (subst h; simp)

theorem evalStrDefault_kind (n dflt : String) (r : Option RawValue)
    (e : VError) (h : e ∈ errsOf (evalStrDefault n dflt r)) :
    e.kind ≠ ErrKind.ruleErr := by
  unfold evalStrDefault at h
  repeat' split at h
  all_goals simp [errsOf] at h
  all_goals (subst h; simp)

theorem evalIntField_kind (n : String) (lo hi : Int) (r : Option RawValue)
    (e : VError) (h : e ∈ errsOf (evalIntField n lo hi r)) :
    e.kind ≠ ErrKind.ruleErr := by
  unfold evalIntField at h
  repeat' split at h
  all_goals simp [errsOf] at h
  all_goals (subst h; simp)

theorem evalFloatField_kind (n : String) (lo hi : Rat) (r : Option RawValue)
    (e : VError) (h : e ∈ errsOf (evalFloatField n lo hi r)) :
    e.kind ≠ ErrKind.ruleErr := by
  unfold evalFloatField at h
  repeat' split at h
  all_goals simp [errsOf] at h
  all_goals (subst h; simp)

theorem evalBoolDefault_kind (n : String) (dflt : Bool) (r : Option RawValue)
    (e : VError) (h : e ∈ errsOf (evalBoolDefault n dflt r)) :
    e.kind ≠ ErrKind.ruleErr := by
  unfold evalBoolDefault at h
  repeat' split at h
  all_goals simp [errsOf] at h
  all_goals (subst h; simp)

theorem evalTimeField_kind (n : String) (r : Option RawValue)
    (e : VError) (h : e ∈ errsOf (evalTimeField n r)) :
    e.kind ≠ ErrKind.ruleErr := by
  unfold evalTimeField at h
  repeat' split at h
  all_goals simp [errsOf] at h
  all_goals (subst h; simp)

theorem evalContactTypeField_kind (n : String) (r : Option RawValue)
    (e : VError) (h : e ∈ errsOf (evalContactTypeField n r)) :
    e.kind ≠ ErrKind.ruleErr := by
  unfold evalContactTypeField at h
  repeat' split at h
  all_goals simp [errsOf] at h
  all_goals (subst h; simp)

theorem evalRankField_kind (n : String) (r : Option RawValue)
    (e : VError) (h : e ∈ errsOf (evalRankField n r)) :
    e.kind ≠ ErrKind.ruleErr := by
  unfold evalRankField at h
  repeat' split at h
  all_goals simp [errsOf] at h
  all_goals (subst h; simp)

/-- Every error of a nested CrewMember validation is a field-level error. -/
theorem validateCrewMember_kind (d : RawDict) (e : VError)
    (h : e ∈ errListOf (validateCrewMember d)) : e.kind ≠ ErrKind.ruleErr := by
  rw [validateCrewMember_errList] at h
  rcases List.mem_flatten.mp h with ⟨l, hl, hel⟩
  simp only [crewSlots, List.mem_cons, List.not_mem_nil, or_false] at hl
  rcases hl with rfl | rfl | rfl | rfl | rfl | rfl | rfl
  · exact evalStrField_kind _ _ _ _ e hel
  · exact evalStrField_kind _ _ _ _ e hel
  · exact evalRankField_kind _ _ e hel
  · exact evalIntField_kind _ _ _ _ e hel
  · exact evalStrField_kind _ _ _ _ e hel
  · exact evalIntField_kind _ _ _ _ e hel
  · exact evalBoolDefault_kind _ _ _ e hel

theorem crewElemResult_kind (name : String) (i : Nat) (x : RawValue)
    (e : VError) (h : e ∈ errListOf (crewElemResult name i x)) :
    e.kind ≠ ErrKind.ruleErr := by
  cases x
  case obj dx =>
    cases hv : validateCrewMember dx with
    | ok m => simp [crewElemResult, hv, errListOf] at h
    | error es =>
      simp only [crewElemResult, hv, errListOf, List.mem_map] at h
      rcases h with ⟨e', he', rfl⟩
      have hm : e' ∈ errListOf (validateCrewMember dx) := by
        rw [hv]; exact he'
      have hk := validateCrewMember_kind dx e' hm
      simpa [preErr] using hk
  all_goals (simp [crewElemResult, errListOf] at h; subst h; simp)

theorem crewResults_kind (name : String) (i : Nat) (xs : List RawValue) :
    ∀ r ∈ crewResults name i xs, ∀ e ∈ errListOf r, e.kind ≠ ErrKind.ruleErr := by
  induction xs generalizing i with
  | nil => simp [crewResults]
  | cons x xs ih =>
    intro r hr e he
    rw [crewResults] at hr
    rcases List.mem_cons.mp hr with rfl | hr2
    · exact crewElemResult_kind name i x e he
    · exact ih (i + 1) r hr2 e he

theorem collectElems_kind (rs : List (Except (List VError) CrewMember))
    (hall : ∀ r ∈ rs, ∀ e' ∈ errListOf r, e'.kind ≠ ErrKind.ruleErr)
    (e : VError) (h : e ∈ errListOf (collectElems rs)) :
    e.kind ≠ ErrKind.ruleErr := by
  induction rs with
  | nil => simp [collectElems, errListOf] at h
  | cons r rs ih =>
    unfold collectElems at h
    cases r with
    | ok m =>
      cases hc : collectElems rs with
      | ok ms => rw [hc] at h; simp [errListOf] at h
      | error es =>
        rw [hc] at h
        refine ih (fun r hr => hall r (List.mem_cons_of_mem _ hr)) ?_
        rw [hc]; exact h
    | error es =>
      simp only [errListOf, List.mem_append] at h
      rcases h with h1 | h2
      · exact hall _ (List.mem_cons_self _ _) e h1
      · exact ih (fun r hr => hall r (List.mem_cons_of_mem _ hr)) h2

theorem evalCrewField_kind (name : String) (a b : Nat) (raw : Option RawValue)
    (e : VError) (h : e ∈ errListOf (evalCrewField name a b raw)) :
    e.kind ≠ ErrKind.ruleErr := by
  unfold evalCrewField at h
  repeat' split at h
  all_goals first
    | exact collectElems_kind _ (crewResults_kind name 0 _) e h
    | (simp [errListOf] at h; subst h; simp)

/-- Every error of the contact field phase is a field-level error. -/
theorem contactSlots_kind (d : RawDict) (e : VError)
    (h : e ∈ (contactSlots d).flatten) : e.kind ≠ ErrKind.ruleErr := by
  rcases List.mem_flatten.mp h with ⟨l, hl, hel⟩
  simp only [contactSlots, List.mem_cons, List.not_mem_nil, or_false] at hl
  rcases hl with rfl | rfl | rfl | rfl | rfl | rfl | rfl | rfl | rfl
  · exact evalStrField_kind _ _ _ _ e hel
  · exact evalTimeField_kind _ _ e hel
  · exact evalStrField_kind _ _ _ _ e hel
  · exact evalContactTypeField_kind _ _ e hel
  · exact evalFloatField_kind _ _ _ _ e hel
  · exact evalIntField_kind _ _ _ _ e hel
  · exact evalIntField_kind _ _ _ _ e hel
  · exact evalOptStrField_kind _ _ _ e hel
  · exact evalBoolDefault_kind _ _ _ e hel

/-- Every error of the mission field phase (nested crew errors included)
is a field-level error. -/
theorem missionSlots_kind (d : RawDict) (e : VError)
    (h : e ∈ (missionSlots d).flatten) : e.kind ≠ ErrKind.ruleErr := by
  rcases List.mem_flatten.mp h with ⟨l, hl, hel⟩
  simp only [missionSlots, List.mem_cons, List.not_mem_nil, or_false] at hl
  rcases hl with rfl | rfl | rfl | rfl | rfl | rfl | rfl | rfl
  · exact evalStrField_kind _ _ _ _ e hel
  · exact evalStrField_kind _ _ _ _ e hel
  · exact evalStrField_kind _ _ _ _ e hel
  · exact evalTimeField_kind _ _ e hel
  · exact evalIntField_kind _ _ _ _ e hel
  · exact evalCrewField_kind _ _ _ _ e hel
  · exact evalStrDefault_kind _ _ _ e hel
  · exact evalFloatField_kind _ _ _ _ e hel

/-- C3: for every raw input in which at least one field-level coercion or
constraint fails, no business rule is evaluated: the report is exactly the
collected field errors and never contains a rule-level error (rules only
ever observe a fully-coerced candidate).  Stated for the two schemas that
declare business rules. -/
theorem c3_no_rules_after_field_failure :
    (∀ (d : RawDict) (es : List VError), contactFields d = Except.error es →
      validateAlienContact d = Except.error es ∧
        ∀ e ∈ es, e.kind ≠ ErrKind.ruleErr)
  ∧ (∀ (d : RawDict) (es : List VError), missionFields d = Except.error es →
      validateSpaceMission d = Except.error es ∧
        ∀ e ∈ es, e.kind ≠ ErrKind.ruleErr) := by
  constructor
  · intro d es h
    refine ⟨by rw [validateAlienContact, h], ?_⟩
    intro e he
    apply contactSlots_kind d
    rw [← contactFields_errList, h]
    exact he
  · intro d es h
    refine ⟨by rw [validateSpaceMission, h], ?_⟩
    intro e he
    apply missionSlots_kind d
    rw [← missionFields_errList, h]
    exact he

/-- Witness for C3 at a concrete contact record with a failing field: the
report is exactly the field error and holds no rule-level entry. -/
theorem c3_no_rules_after_field_failure_witness :
    contactFields c3dW = Except.error c3es ∧
    validateAlienContact c3dW = Except.error c3es ∧
    ∀ e ∈ c3es, e.kind ≠ ErrKind.ruleErr :=
  ⟨by decide, (c3_no_rules_after_field_failure.1 c3dW c3es (by decide)).1,
    (c3_no_rules_after_field_failure.1 c3dW c3es (by decide)).2⟩

/-- C4 counterexample: the claim as stated is false.  `c4dX` coerces fully,
has a leader, an all-active crew, duration_days 451 > 365 and strictly
fewer than half experienced members, yet validation fails with the prefix
rule error — the long-mission rule error is not reported, because the
earlier prefix rule fails first. -/
theorem c4_counterexample :
    missionFields c4dX = Except.ok c4mX ∧
    hasLeader c4mX.crew = true ∧ allActive c4mX.crew = true ∧
    365 < c4mX.duration_days ∧
    2 * (c4mX.crew.filter (fun c => decide (5 ≤ c.years_experience))).length
      < c4mX.crew.length ∧
    validateSpaceMission c4dX = Except.error [⟨[], ErrKind.ruleErr, smMsg 0⟩] ∧
    validateSpaceMission c4dX ≠ Except.error [⟨[], ErrKind.ruleErr, smMsg 2⟩] := by
  decide

/-- C4 (amended): for every mission record whose fields coerce
successfully, whose mission_id starts with M, with a leader present and
all crew active: validation fails with the long-mission rule error exactly
when duration_days > 365 and strictly fewer than half of the crew have
years_experience ≥ 5 (exactly half passes); otherwise — in particular
whenever duration_days ≤ 365 — the proportional check is exempt and the
mission validates. -/
theorem c4_long_mission_rule (d : RawDict) (m : SpaceMission)
    (hok : missionFields d = Except.ok m)
    (hpre : strStartsWith m.mission_id "M" = true)
    (hlead : hasLeader m.crew = true)
    (hact : allActive m.crew = true) :
    (validateSpaceMission d = Except.error [⟨[], ErrKind.ruleErr, smMsg 2⟩]
      ↔ 365 < m.duration_days ∧
        2 * (m.crew.filter (fun c => decide (5 ≤ c.years_experience))).length
          < m.crew.length)
    ∧ (¬(365 < m.duration_days ∧
        2 * (m.crew.filter (fun c => decide (5 ≤ c.years_experience))).length
          < m.crew.length) →
      validateSpaceMission d = Except.ok m) := by
  have hb0 : smRuleBroken m 0 = false := by
    show (!strStartsWith m.mission_id "M") = false
    rw [hpre]; rfl
  have hb1 : smRuleBroken m 1 = false := by
    show (!hasLeader m.crew) = false
    rw [hlead]; rfl
  have hb3 : smRuleBroken m 3 = false := by
    show (!allActive m.crew) = false
    rw [hact]; rfl
  have hiff : smRuleBroken m 2 = true ↔
      (365 < m.duration_days ∧
        2 * (m.crew.filter (fun c => decide (5 ≤ c.years_experience))).length
          < m.crew.length) := by
    show (decide (365 < m.duration_days) &&
      decide (2 * (m.crew.filter (fun c => decide (5 ≤ c.years_experience))).length
        < m.crew.length)) = true ↔ _
    rw [Bool.and_eq_true, decide_eq_true_iff, decide_eq_true_iff]
  cases hb2 : smRuleBroken m 2 with
  | true =>
    have hr : SpaceMission.validate_mission_safety m = some (smMsg 2) := by
      simp [SpaceMission.validate_mission_safety, hb0, hb1, hb2]
    have hv : validateSpaceMission d = Except.error [⟨[], ErrKind.ruleErr, smMsg 2⟩] := by
      rw [validateSpaceMission, hok]
      simp [hr]
    exact ⟨iff_of_true hv (hiff.mp hb2),
      fun hnp => absurd (hiff.mp hb2) hnp⟩
  | false =>
    have hr : SpaceMission.validate_mission_safety m = none := by
      simp [SpaceMission.validate_mission_safety, hb0, hb1, hb2, hb3]
    have hv : validateSpaceMission d = Except.ok m := by
      rw [validateSpaceMission, hok]
      simp [hr]
    have hnp : ¬(365 < m.duration_days ∧
        2 * (m.crew.filter (fun c => decide (5 ≤ c.years_experience))).length
          < m.crew.length) := by
      intro hp
      have h2 := hiff.mpr hp
      rw [hb2] at h2
      exact Bool.false_ne_true h2
    refine ⟨iff_of_false ?_ hnp, fun _ => hv⟩
    rw [hv]
    intro hc
    cases hc

/-- Witness for the amended C4: the long mission `c4dW` (451 days, 0 of 2
experienced, leader present, all active, M-prefixed id) fails with the
long-mission rule error, while the identical mission with duration 100
(`c4dV`) validates. -/
theorem c4_long_mission_rule_witness :
    missionFields c4dW = Except.ok c4mW ∧
    strStartsWith c4mW.mission_id "M" = true ∧
    hasLeader c4mW.crew = true ∧ allActive c4mW.crew = true ∧
    validateSpaceMission c4dW = Except.error [⟨[], ErrKind.ruleErr, smMsg 2⟩] ∧
    missionFields c4dV = Except.ok c4mV ∧
    validateSpaceMission c4dV = Except.ok c4mV :=
  ⟨by decide, by decide, by decide, by decide,
    (c4_long_mission_rule c4dW c4mW (by decide) (by decide) (by decide)
      (by decide)).1.mpr ⟨by decide, by decide⟩,
    by decide,
    (c4_long_mission_rule c4dV c4mV (by decide) (by decide) (by decide)
      (by decide)).2 (by decide)⟩

/-- C5 counterexample: the claim as stated is false.  `c5dX` coerces fully
and its sole crew member is a cadet (no captain or commander), yet
validation fails with the prefix rule error — the leadership rule error is
not the reported entry, because the earlier prefix rule fails first. -/
theorem c5_counterexample :
    missionFields c5dX = Except.ok c5mX ∧
    hasLeader c5mX.crew = false ∧
    validateSpaceMission c5dX = Except.error [⟨[], ErrKind.ruleErr, smMsg 0⟩] ∧
    validateSpaceMission c5dX ≠ Except.error [⟨[], ErrKind.ruleErr, smMsg 1⟩] := by
  decide

/-- C5 (amended): for every mission record whose fields (including every
nested crew member) pass all field-level coercions and constraints and
whose mission_id starts with M, if no crew member has rank captain or
commander then validation fails with the leadership rule error. -/
theorem c5_leadership_rule (d : RawDict) (m : SpaceMission)
    (hok : missionFields d = Except.ok m)
    (hpre : strStartsWith m.mission_id "M" = true)
    (hlead : hasLeader m.crew = false) :
    validateSpaceMission d = Except.error [⟨[], ErrKind.ruleErr, smMsg 1⟩] := by
  have hb0 : smRuleBroken m 0 = false := by
    show (!strStartsWith m.mission_id "M") = false
    rw [hpre]; rfl
  have hb1 : smRuleBroken m 1 = true := by
    show (!hasLeader m.crew) = true
    rw [hlead]; rfl
  have hr : SpaceMission.validate_mission_safety m = some (smMsg 1) := by
    simp [SpaceMission.validate_mission_safety, hb0, hb1]
  rw [validateSpaceMission, hok]
  simp [hr]

/-- Witness for the amended C5: the mission `c5dW` (M-prefixed id, sole
cadet crew member) fails with the leadership rule error even though every
field-level constraint passed. -/
theorem c5_leadership_rule_witness :
    missionFields c5dW = Except.ok c5mW ∧
    strStartsWith c5mW.mission_id "M" = true ∧
    hasLeader c5mW.crew = false ∧
    validateSpaceMission c5dW = Except.error [⟨[], ErrKind.ruleErr, smMsg 1⟩] :=
  ⟨by decide, by decide, by decide,
    c5_leadership_rule c5dW c5mW (by decide) (by decide) (by decide)⟩

/-- C6: for every numeric field with declared inclusive min/max bounds, an
input value exactly at the min or max bound passes the field's range
check, while a value one unit below the min or one unit above the max
fails with a range error.  Stated generically over the integer and float
field evaluators, which every declared numeric field (crew_size,
power_level, witness_count, duration_minutes, ...) instantiates. -/
theorem c6_range_inclusivity :
    ∀ (ni nf : String) (lo hi : Int) (qlo qhi : Rat), lo ≤ hi → qlo ≤ qhi →
      ((evalIntField ni lo hi (some (RawValue.int lo)) = Except.ok lo
       ∧ evalIntField ni lo hi (some (RawValue.int hi)) = Except.ok hi
       ∧ (∃ e, errOf (evalIntField ni lo hi (some (RawValue.int (lo - 1)))) = some e
            ∧ e.kind = ErrKind.rangeErr)
       ∧ (∃ e, errOf (evalIntField ni lo hi (some (RawValue.int (hi + 1)))) = some e
            ∧ e.kind = ErrKind.rangeErr))
      ∧ (evalFloatField nf qlo qhi (some (RawValue.float qlo)) = Except.ok qlo
       ∧ evalFloatField nf qlo qhi (some (RawValue.float qhi)) = Except.ok qhi
       ∧ (∃ e, errOf (evalFloatField nf qlo qhi (some (RawValue.float (qlo - 1)))) = some e
            ∧ e.kind = ErrKind.rangeErr)
       ∧ (∃ e, errOf (evalFloatField nf qlo qhi (some (RawValue.float (qhi + 1)))) = some e
            ∧ e.kind = ErrKind.rangeErr))) := by
  intro ni nf lo hi qlo qhi hle hqle
  refine ⟨⟨?_, ?_, ?_, ?_⟩, ⟨?_, ?_, ?_, ?_⟩⟩
  · simp [evalIntField, coerceInt, lt_irrefl, not_lt.mpr hle]
  · simp [evalIntField, coerceInt, lt_irrefl, not_lt.mpr hle]
  · refine ⟨⟨[.field ni], .rangeErr,
      "Input should be greater than or equal to " ++ toString lo⟩, ?_, rfl⟩
    have h1 : lo - 1 < lo := sub_one_lt lo
    simp [evalIntField, coerceInt, h1, errOf]
  · refine ⟨⟨[.field ni], .rangeErr,
      "Input should be less than or equal to " ++ toString hi⟩, ?_, rfl⟩
    have h1 : ¬(hi + 1 < lo) := by omega
    have h2 : hi < hi + 1 := lt_add_one hi
    simp [evalIntField, coerceInt, h1, h2, errOf]
  · simp [evalFloatField, coerceFloat, lt_irrefl, not_lt.mpr hqle]
  · simp [evalFloatField, coerceFloat, lt_irrefl, not_lt.mpr hqle]
  · refine ⟨⟨[.field nf], .rangeErr,
      "Input should be greater than or equal to " ++ toString qlo.num⟩, ?_, rfl⟩
    have h1 : qlo - 1 < qlo := sub_one_lt qlo
    simp [evalFloatField, coerceFloat, h1, errOf]
  · refine ⟨⟨[.field nf], .rangeErr,
      "Input should be less than or equal to " ++ toString qhi.num⟩, ?_, rfl⟩
    have h1 : ¬(qhi + 1 < qlo) :=
      not_lt.mpr (le_trans hqle (le_of_lt (lt_add_one qhi)))
    have h2 : qhi < qhi + 1 := lt_add_one qhi
    simp [evalFloatField, coerceFloat, h1, h2, errOf]

/-- Witness for C6 at the declared bounds of crew_size (integers 1..20)
and power_level (floats 0..100). -/
theorem c6_range_inclusivity_witness :
    (1 : Int) ≤ 20 ∧ (0 : Rat) ≤ 100 ∧
    ((evalIntField "crew_size" 1 20 (some (RawValue.int 1)) = Except.ok 1
     ∧ evalIntField "crew_size" 1 20 (some (RawValue.int 20)) = Except.ok 20
     ∧ (∃ e, errOf (evalIntField "crew_size" 1 20 (some (RawValue.int (1 - 1)))) = some e
          ∧ e.kind = ErrKind.rangeErr)
     ∧ (∃ e, errOf (evalIntField "crew_size" 1 20 (some (RawValue.int (20 + 1)))) = some e
          ∧ e.kind = ErrKind.rangeErr))
    ∧ (evalFloatField "power_level" 0 100 (some (RawValue.float 0)) = Except.ok 0
     ∧ evalFloatField "power_level" 0 100 (some (RawValue.float 100)) = Except.ok 100
     ∧ (∃ e, errOf (evalFloatField "power_level" 0 100 (some (RawValue.float (0 - 1)))) = some e
          ∧ e.kind = ErrKind.rangeErr)
     ∧ (∃ e, errOf (evalFloatField "power_level" 0 100 (some (RawValue.float (100 + 1)))) = some e
          ∧ e.kind = ErrKind.rangeErr))) :=
  ⟨by decide, by decide,
    c6_range_inclusivity "crew_size" "power_level" 1 20 0 100 (by decide) (by decide)⟩

/-- C7: for every boolean-typed field (is_operational, is_verified,
is_active — all evaluated through the boolean field evaluator), coercion
succeeds only when the raw input value is itself a boolean: string inputs
such as "true"/"false" and numeric inputs such as 0/1 are rejected with a
type-coercion error. -/
theorem c7_bool_strict :
    (∀ (name : String) (dflt b : Bool),
      evalBoolDefault name dflt (some (RawValue.bool b)) = Except.ok b)
  ∧ (∀ (name : String) (dflt : Bool) (s : String),
      evalBoolDefault name dflt (some (RawValue.str s)) =
        Except.error ⟨[.field name], .typeErr, "Input should be a valid boolean"⟩)
  ∧ (∀ (name : String) (dflt : Bool) (n : Int),
      evalBoolDefault name dflt (some (RawValue.int n)) =
        Except.error ⟨[.field name], .typeErr, "Input should be a valid boolean"⟩)
  ∧ (∀ (name : String) (dflt b : Bool) (v : RawValue),
      evalBoolDefault name dflt (some v) = Except.ok b → v = RawValue.bool b) := by
  refine ⟨fun name dflt b => rfl, fun name dflt s => rfl, fun name dflt n => rfl,
    fun name dflt b v h => ?_⟩
  cases v <;> simp [evalBoolDefault, coerceBool] at h
  rw [h]

/-- Witness for C7's only-if direction at a concrete boolean input. -/
theorem c7_bool_strict_witness :
    evalBoolDefault "is_active" true (some (RawValue.bool true)) = Except.ok true ∧
    RawValue.bool true = RawValue.bool true :=
  ⟨by decide, c7_bool_strict.2.2.2 "is_active" true true (RawValue.bool true) (by decide)⟩

/-- C8 counterexample: the claim as stated is false.  An absent is_active
coerces to the ordinary boolean value true — exactly the value an explicit
boolean input produces — and an absent mission_status coerces to the
ordinary string "planned"; for these non-required fields the result is not
a sentinel distinct from ordinary field values. -/
theorem c8_counterexample :
    evalBoolDefault "is_active" true none = Except.ok true ∧
    evalBoolDefault "is_active" true (some (RawValue.bool true)) = Except.ok true ∧
    evalStrDefault "mission_status" "planned" none = Except.ok "planned" ∧
    evalStrDefault "mission_status" "planned" (some (RawValue.str "planned")) =
      Except.ok "planned" := by
  decide

/-- C8 (amended): an absent raw value makes a non-required field's
coercion succeed with that field's declared default: the sentinel None —
distinct from every ordinary string value, the empty string included —
for notes and message_received, the ordinary boolean true for
is_operational and is_active, and the ordinary string "planned" for
mission_status. -/
theorem c8_optional_defaults :
    evalOptStrField "notes" 200 none = Except.ok none ∧
    evalOptStrField "message_received" 500 none = Except.ok none ∧
    (∀ s : String, ((none : Option String) = some s) = False) ∧
    evalBoolDefault "is_operational" true none = Except.ok true ∧
    evalBoolDefault "is_active" true none = Except.ok true ∧
    evalStrDefault "mission_status" "planned" none = Except.ok "planned" := by
  refine ⟨rfl, rfl, fun s => by simp, rfl, rfl, rfl⟩

/-- C9: validation is deterministic — it is embedded as a pure function of
the raw input, so running it twice on the same input yields identical
results (the same domain object on success, the same ordered report on
failure); no hidden state exists that could influence the outcome. -/
theorem c9_deterministic :
    ∀ d : RawDict,
      validateSpaceStation d = validateSpaceStation d ∧
      validateAlienContact d = validateAlienContact d ∧
      validateSpaceMission d = validateSpaceMission d :=
  fun _ => ⟨rfl, rfl, rfl⟩

/-- A coerced crew member's is_active field is true whenever the raw
record omits is_active or supplies the boolean true. -/
theorem crewMember_active_of_lookup (dx : RawDict) (m : CrewMember)
    (hl : dx.lookup "is_active" = none ∨
      dx.lookup "is_active" = some (RawValue.bool true))
    (h : validateCrewMember dx = Except.ok m) : m.is_active = true := by
  rw [validateCrewMember] at h
  cases htup : crewFieldsTup dx with
  | error es => rw [htup] at h; simp [Except.map] at h
  | ok t =>
    rw [htup] at h
    simp only [Except.map] at h
    injection h with h
    obtain ⟨v1, v2, v3, v4, v5, v6, v7⟩ := t
    rw [crewFieldsTup] at htup
    obtain ⟨h1, htup⟩ := (step_ok_iff _ _ _ _).mp htup
    obtain ⟨h2, htup⟩ := (step_ok_iff _ _ _ _).mp htup
    obtain ⟨h3, htup⟩ := (step_ok_iff _ _ _ _).mp htup
    obtain ⟨h4, htup⟩ := (step_ok_iff _ _ _ _).mp htup
    obtain ⟨h5, htup⟩ := (step_ok_iff _ _ _ _).mp htup
    obtain ⟨h6, htup⟩ := (step_ok_iff _ _ _ _).mp htup
    rw [one_ok_iff] at htup
    subst h
    show v7 = true
    rcases hl with hl | hl <;> rw [hl] at htup <;>
      simp_all [evalBoolDefault, coerceBool]

/-- If the field phase of a mission succeeds, the crew field evaluator
succeeded on the raw crew value with exactly the mission's crew list. -/
theorem missionFields_ok_crew (d : RawDict) (m : SpaceMission)
    (h : missionFields d = Except.ok m) :
    evalCrewField "crew" 1 12 (d.lookup "crew") = Except.ok m.crew := by
  rw [missionFields] at h
  cases htup : missionFieldsTup d with
  | error es => rw [htup] at h; simp [Except.map] at h
  | ok t =>
    rw [htup] at h
    simp only [Except.map] at h
    injection h with h
    obtain ⟨v1, v2, v3, v4, v5, v6, v7, v8⟩ := t
    rw [missionFieldsTup] at htup
    obtain ⟨h1, htup⟩ := (step_ok_iff _ _ _ _).mp htup
    obtain ⟨h2, htup⟩ := (step_ok_iff _ _ _ _).mp htup
    obtain ⟨h3, htup⟩ := (step_ok_iff _ _ _ _).mp htup
    obtain ⟨h4, htup⟩ := (step_ok_iff _ _ _ _).mp htup
    obtain ⟨h5, htup⟩ := (step_ok_iff _ _ _ _).mp htup
    obtain ⟨h6, htup⟩ := (stepN_ok_iff _ _ _ _).mp htup
    subst h
    exact h6

/-- Element results of a successful collection are all successes, index by
index. -/
theorem collectElems_ok_link (rs : List (Except (List VError) CrewMember))
    (ms : List CrewMember) (h : collectElems rs = Except.ok ms) :
    ∀ (k : Nat) (mk : CrewMember),
      ms[k]? = some mk → rs[k]? = some (Except.ok mk) := by
  induction rs generalizing ms with
  | nil =>
    simp only [collectElems] at h
    injection h with h
    subst h
    intro k mk hk
    simp at hk
  | cons r rs ih =>
    unfold collectElems at h
    cases r with
    | error es => simp at h
    | ok m0 =>
      cases hc : collectElems rs with
      | error es => rw [hc] at h; simp at h
      | ok ms' =>
        rw [hc] at h
        injection h with h
        subst h
        intro k mk hk
        cases k with
        | zero =>
          simp only [List.getElem?_cons_zero, Option.some.injEq] at hk
          subst hk
          simp
        | succ k' =>
          simp only [List.getElem?_cons_succ] at hk ⊢
          exact ih ms' hc k' mk hk

/-- The k-th element result of a crew list is the element evaluation of
the k-th raw element, at the shifted index. -/
theorem crewResults_getElem (name : String) (i k : Nat) (xs : List RawValue) :
    (crewResults name i xs)[k]? = (xs[k]?).map (crewElemResult name (i + k)) := by
  induction xs generalizing i k with
  | nil => simp [crewResults]
  | cons x xs ih =>
    cases k with
    | zero => simp [crewResults]
    | succ k' =>
      rw [show i + (k' + 1) = (i + 1) + k' from by omega]
      simpa [crewResults] using ih (i + 1) k'

/-- A successful crew field evaluation comes from a raw list whose every
element is a raw object that validates to the corresponding member. -/
theorem evalCrewField_ok_link (name : String) (a b : Nat)
    (raw : Option RawValue) (ms : List CrewMember)
    (h : evalCrewField name a b raw = Except.ok ms) :
    ∃ xs, raw = some (RawValue.list xs) ∧
      ∀ (k : Nat) (mk : CrewMember), ms[k]? = some mk →
        ∃ dx, xs[k]? = some (RawValue.obj dx) ∧
          validateCrewMember dx = Except.ok mk := by
  cases raw with
  | none => simp [evalCrewField] at h
  | some v =>
    cases v
    case list xs =>
      rw [evalCrewField] at h
      split at h
      · simp at h
      · split at h
        · simp at h
        · refine ⟨xs, rfl, ?_⟩
          intro k mk hk
          have hrs := collectElems_ok_link _ _ h k mk hk
          rw [crewResults_getElem] at hrs
          cases hx : xs[k]? with
          | none => rw [hx] at hrs; simp at hrs
          | some x =>
            rw [hx] at hrs
            simp only [Option.map_some'] at hrs
            injection hrs with hrs
            cases x
            case obj dx =>
              refine ⟨dx, rfl, ?_⟩
              cases hv : validateCrewMember dx with
              | error es => simp [crewElemResult, hv] at hrs
              | ok m0 =>
                simp only [crewElemResult, hv] at hrs
                injection hrs with hrs
                rw [hrs]
            all_goals simp [crewElemResult] at hrs
    all_goals simp [evalCrewField] at h

/-- C10 (implicit): a crew member record that omits is_active coerces with
is_active = true, so the all-active rule can fail only when some crew
member's raw input explicitly supplies a false is_active; a mission whose
crew members all omit is_active (or supply true) never fails that rule. -/
theorem c10_default_active :
    (∀ (dx : RawDict) (m : CrewMember), dx.lookup "is_active" = none →
      validateCrewMember dx = Except.ok m → m.is_active = true)
  ∧ (∀ (d : RawDict) (m : SpaceMission), missionFields d = Except.ok m →
      (∀ i dx, crewRawAt d i = some (RawValue.obj dx) →
        dx.lookup "is_active" = none ∨
          dx.lookup "is_active" = some (RawValue.bool true)) →
      validateSpaceMission d ≠
        Except.error [⟨[], ErrKind.ruleErr, smMsg 3⟩]) := by
  constructor
  · intro dx m hl h
    exact crewMember_active_of_lookup dx m (Or.inl hl) h
  · intro d m hok hcrew
    have hcf := missionFields_ok_crew d m hok
    obtain ⟨xs, hxs, hlink⟩ := evalCrewField_ok_link _ _ _ _ _ hcf
    have hact : allActive m.crew = true := by
      rw [allActive, List.all_eq_true]
      intro c hc
      obtain ⟨k, hk⟩ := List.mem_iff_getElem?.mp hc
      obtain ⟨dx, hdx, hvm⟩ := hlink k c hk
      have hraw : crewRawAt d k = some (RawValue.obj dx) := by
        rw [crewRawAt, hxs]
        exact hdx
      exact crewMember_active_of_lookup dx c (hcrew k dx hraw) hvm
    have hb3 : smRuleBroken m 3 = false := by
      show (!allActive m.crew) = false
      rw [hact]; rfl
    have hne : SpaceMission.validate_mission_safety m ≠ some (smMsg 3) := by
      rw [SpaceMission.validate_mission_safety]
      split
      · intro hc; injection hc with hc
        exact (by decide : smMsg 0 ≠ smMsg 3) hc
      · split
        · intro hc; injection hc with hc
          exact (by decide : smMsg 1 ≠ smMsg 3) hc
        · split
          · intro hc; injection hc with hc
            exact (by decide : smMsg 2 ≠ smMsg 3) hc
          · split
            · rename_i hb
              rw [hb3] at hb
              exact absurd hb (by simp)
            · intro hc; cases hc
    cases hr : SpaceMission.validate_mission_safety m with
    | none =>
      have hval : validateSpaceMission d = Except.ok m := by
        rw [validateSpaceMission, hok]
        simp [hr]
      rw [hval]
      intro hc
      cases hc
    | some msg =>
      have hval : validateSpaceMission d =
          Except.error [⟨[], ErrKind.ruleErr, msg⟩] := by
        rw [validateSpaceMission, hok]
        simp [hr]
      rw [hval]
      intro hc
      injection hc with hc
      have hmsg : msg = smMsg 3 := by
        simp [VError.mk.injEq] at hc
        exact hc
      rw [hmsg] at hr
      exact hne hr

/-- Witness for C10 at a concrete crew record without is_active: coercion
succeeds and yields an active member. -/
theorem c10_default_active_witness :
    c10dx.lookup "is_active" = none ∧
    validateCrewMember c10dx = Except.ok c10m ∧
    c10m.is_active = true :=
  ⟨rfl, by decide, c10_default_active.1 c10dx c10m rfl (by decide)⟩
